import Mathlib

/-!
Verification of the delivery-orchestration engine of the action service.

Each definition below is a shallow embedding of a Python function or class
from the repository, translated directly from the source file named in its
doc comment.  Machine integers are modelled as `Nat`/`Int`, durations as
whole seconds, byte strings as `List Char`, fallible code as `Except`,
and stateful repository code as explicit state passing.
-/

namespace ActionService

/-! ## Retry backoff (src/usecases/events/retry_events.py) -/

/-- Embeds `RetryFailedEvents._calculate_backoff`: base delay of 30 seconds
with exponential increase, capped at one hour; result in seconds. -/
def calculate_backoff (retry_count : Nat) : Nat :=
  min (30 * 2 ^ retry_count) 3600

/-! ## Delivery policy model (src/domain/delivery.py) -/

/-- Embeds the frozen dataclass `DeliverySemantic`. -/
structure DeliverySemantic where
  id : String
  name : String
  description : String
  requires_ack : Bool
  allows_retry : Bool
  preserves_order : Bool
  requires_dedup : Bool
deriving Repr, DecidableEq

/-- Embeds the frozen dataclass `DeliveryPolicy`.  `max_retries = none`
means unlimited retries, `expiry = none` means the policy never expires;
`retry_delay` and `expiry` are in whole seconds. -/
structure DeliveryPolicy where
  semantic : DeliverySemantic
  max_retries : Option Int
  retry_delay : Nat
  expiry : Option Nat
deriving Repr, DecidableEq

/-- Embeds dataclass construction of `DeliveryPolicy` together with its
`__post_init__` validation: raising `ValueError` is modelled as
`Except.error`.  Note that in Python `None != 0` is true, so
`max_retries = none` with a no-retry semantic also fails. -/
def mkDeliveryPolicy (semantic : DeliverySemantic) (max_retries : Option Int)
    (retry_delay : Nat) (expiry : Option Nat) : Except String DeliveryPolicy :=
  if !semantic.allows_retry && !(max_retries == some 0) then
    .error (semantic.name ++ " delivery cannot have retries")
  else if semantic.requires_dedup && !semantic.requires_ack then
    .error (semantic.name ++ " delivery requires acknowledgment")
  else
    .ok ⟨semantic, max_retries, retry_delay, expiry⟩

/-- The `streaming` semantic from src/repositories/behaviour.py
(`allows_retry = False`). -/
def streamingSemantic : DeliverySemantic :=
  { id := "streaming"
    name := "Streaming"
    description := "Continuous stream of messages with backpressure"
    requires_ack := true
    allows_retry := false
    preserves_order := true
    requires_dedup := false }

/-- The `at_least_once` semantic from src/repositories/behaviour.py. -/
def atLeastOnceSemantic : DeliverySemantic :=
  { id := "at_least_once"
    name := "At Least Once"
    description := "Message will be delivered one or more times"
    requires_ack := true
    allows_retry := true
    preserves_order := false
    requires_dedup := false }

/-! ## Action direction (src/domain/direction.py) -/

namespace ActionDirection

/-- Embeds `ActionDirection.is_valid`: membership in the four accepted
direction strings, aliases included. -/
def is_valid (value : String) : Bool :=
  value == "efferent" || value == "outbound" ||
  value == "afferent" || value == "inbound"

/-- Embeds `ActionDirection.normalize`: maps aliases to canonical values,
modelling the `ValueError` raise as `Except.error`. -/
def normalize (value : String) : Except String String :=
  if value == "outbound" || value == "efferent" then
    .ok "efferent"
  else if value == "inbound" || value == "afferent" then
    .ok "afferent"
  else
    .error ("Invalid direction: " ++ value)

end ActionDirection

/-! ## JSON-like message values

Models the Python `Dict[str, Any]` / JSON payloads that routing conditions
are evaluated against and that webhook payloads carry. -/

/-- A JSON-like value: the shapes producible by `json` payloads.  String
content is carried as `String`; object fields are an ordered association
list, as in a Python dict. -/
inductive Json where
  | null : Json
  | bool : Bool → Json
  | num : Int → Json
  | str : String → Json
  | arr : List Json → Json
  | obj : List (String × Json) → Json

/-- Python truthiness `bool(value)` on JSON-like values: `None`, `False`,
zero, the empty string, the empty list and the empty dict are falsy,
everything else truthy.  Total: `bool()` never raises on these values. -/
def truthy : Json → Bool
  | .null => false
  | .bool b => b
  | .num n => !(n == 0)
  | .str s => !(s == "")
  | .arr xs => !xs.isEmpty
  | .obj kvs => !kvs.isEmpty

/-- Helper for `pySplitDot`: accumulates the current segment (reversed)
while scanning the characters. -/
def pySplitDotAux : List Char → List Char → List String
  | [], acc => [String.mk acc.reverse]
  | c :: cs, acc =>
    if c == '.' then String.mk acc.reverse :: pySplitDotAux cs []
    else pySplitDotAux cs (c :: acc)

/-- Embeds Python's `condition.split('.')`: split on every dot, keeping
empty segments; the empty string splits to `[""]`. -/
def pySplitDot (s : String) : List String :=
  pySplitDotAux s.data []

/-- Embeds the loop `for part in parts: value = value[part]` from
`RouteMessage._evaluate_condition` (second class in src/usecases/routing.py):
indexing a dict by a present key descends, a missing key raises `KeyError`,
and indexing any non-dict value by a string raises `TypeError`; both raises
are modelled as `Except.error`. -/
def lookupPath : Json → List String → Except String Json
  | v, [] => .ok v
  | v, p :: ps =>
    match v with
    | .obj kvs =>
      match kvs.find? (fun kv => kv.1 == p) with
      | some kv => lookupPath kv.2 ps
      | none => .error ("KeyError: " ++ p)
    | _ => .error "TypeError: value is not subscriptable by str"

/-! ## Routing (src/usecases/routing.py) -/

/-- Embeds the dataclass `RoutingRule`.  `config` is used by the code only
through `config.get("stop_processing", False)`, so it is modelled as an
association list of boolean flags. -/
structure RoutingRule where
  name : String
  destination : String
  condition : Option String
  priority : Int
  config : List (String × Bool)
  description : String
deriving Repr, DecidableEq

/-- Embeds the dataclass `RoutingConfiguration`:
ordered rules, a strategy string, and an optional fallback rule. -/
structure RoutingConfiguration where
  rules : List RoutingRule
  strategy : String
  fallback : Option RoutingRule
deriving Repr, DecidableEq

/-- Python `config.get("stop_processing", False)`. -/
def configGetStop (config : List (String × Bool)) : Bool :=
  match config.find? (fun kv => kv.1 == "stop_processing") with
  | some kv => kv.2
  | none => false

namespace RouteMessageStrategies

/-- Embeds `RouteMessage._evaluate_condition` of the FIRST `RouteMessage`
class in src/usecases/routing.py (lines 50-56): a falsy condition (absent
or empty) matches; for any other condition the body is the TODO stub
`return False` — the message is never consulted. -/
def evaluate_condition (rule : RoutingRule) : Bool :=
  match rule.condition with
  | none => true
  | some c => if c == "" then true else false

/-- `for rule in rules: if cond: append; break` — the first-match loop. -/
def firstMatch : List RoutingRule → List String
  | [] => []
  | r :: rest =>
    if evaluate_condition r then [r.destination] else firstMatch rest

/-- Stable insertion of a rule into a list sorted by descending priority.
Used with `List.foldr` (which inserts the later-listed rules first), an
incoming rule goes before every already-present rule of equal or smaller
priority — those all sat after it in the original list — matching
Python's stable `sorted(key=priority, reverse=True)`. -/
def insertByPriorityDesc (x : RoutingRule) : List RoutingRule → List RoutingRule
  | [] => [x]
  | y :: ys =>
    if x.priority ≥ y.priority then x :: y :: ys
    else y :: insertByPriorityDesc x ys

/-- Python's stable `sorted(rules, key=lambda r: r.priority, reverse=True)`. -/
def sortByPriorityDesc (rules : List RoutingRule) : List RoutingRule :=
  rules.foldr insertByPriorityDesc []

/-- Embeds `RouteMessage.execute` of the FIRST `RouteMessage` class in
src/usecases/routing.py (lines 15-48): dispatch on the strategy string,
then append the fallback destination when no rule produced one.  The
`message` constructor argument is unused because `_evaluate_condition`
never consults it (TODO stub). -/
def execute (routing_config : RoutingConfiguration) : List String :=
  let destinations :=
    if routing_config.strategy == "first-match" then
      firstMatch routing_config.rules
    else if routing_config.strategy == "all-matching" then
      (routing_config.rules.filter evaluate_condition).map
        (fun r => r.destination)
    else if routing_config.strategy == "priority" then
      firstMatch (sortByPriorityDesc routing_config.rules)
    else []
  if destinations.isEmpty then
    match routing_config.fallback with
    | some f => [f.destination]
    | none => destinations
  else destinations

end RouteMessageStrategies

namespace RouteMessage

/-- Embeds `RouteMessage._evaluate_condition` of the SECOND `RouteMessage`
class in src/usecases/routing.py (lines 81-97), the definition the module
name binds to at runtime: a falsy condition matches unconditionally;
otherwise the condition is split on `.`, looked up in the message, and the
value coerced to boolean, with the `try/except` catching every raise and
returning `False`. -/
def evaluate_condition (condition : Option String) (message : Json) : Bool :=
  match condition with
  | none => true
  | some c =>
    if c == "" then true
    else
      match lookupPath message (pySplitDot c) with
      | .ok v => truthy v
      | .error _ => false

/-- The loop of `RouteMessage.execute` of the SECOND class (lines 69-79):
append every matching rule's destination, stopping after a match whose
config sets `stop_processing`. -/
def collectDestinations (message : Json) : List RoutingRule → List String
  | [] => []
  | r :: rest =>
    if evaluate_condition r.condition message then
      if configGetStop r.config then [r.destination]
      else r.destination :: collectDestinations message rest
    else collectDestinations message rest

/-- Embeds `RouteMessage.execute` of the SECOND class: rules are always
sorted by priority descending first, with no strategy dispatch. -/
def execute (message : Json) (rules : List RoutingRule) : List String :=
  collectDestinations message (RouteMessageStrategies.sortByPriorityDesc rules)

end RouteMessage

/-! ## JSON serialization (`json.dumps` as used by src/usecases/webhooks.py)

`ReceiveWebhook.execute` normalizes a JSON payload with
`json.dumps(request.payload).encode('utf-8')`.  Byte strings are modelled
as `List Char`; for the ASCII content this engine stores, UTF-8 length and
character count coincide.  Default `json.dumps` separators are `", "` and
`": "`; string escaping is not modelled (all content considered here is
escape-free ASCII). -/

mutual

/-- `json.dumps` on a JSON-like value, producing the stored byte string. -/
def jsonDumps : Json → List Char
  | .null => "null".toList
  | .bool true => "true".toList
  | .bool false => "false".toList
  | .num n => (toString n).toList
  | .str s => '"' :: s.data ++ ['"']
  | .arr xs => '[' :: jsonDumpsArr xs ++ [']']
  | .obj kvs => '\x7b' :: jsonDumpsObj kvs ++ ['\x7d']

/-- Array elements joined by `", "`. -/
def jsonDumpsArr : List Json → List Char
  | [] => []
  | [x] => jsonDumps x
  | x :: y :: xs => jsonDumps x ++ ", ".toList ++ jsonDumpsArr (y :: xs)

/-- Object entries `"key": value` joined by `", "`. -/
def jsonDumpsObj : List (String × Json) → List Char
  | [] => []
  | [kv] => '"' :: kv.1.data ++ '"' :: ':' :: ' ' :: jsonDumps kv.2
  | kv :: kw :: kvs =>
    ('"' :: kv.1.data ++ '"' :: ':' :: ' ' :: jsonDumps kv.2) ++
      ", ".toList ++ jsonDumpsObj (kw :: kvs)

end

/-! ## Webhook ingestion (src/usecases/webhooks.py, src/interfaces/requests.py) -/

/-- Embeds the `Webhook` record held by the webhook repository
(src/repositories/memory.py): an id, a shared key and a config mapping. -/
structure Webhook where
  id : String
  key : String
  config : List (String × String)
deriving Repr, DecidableEq

/-- Embeds the Pydantic model `WebhookRequest`
(src/interfaces/requests.py): an optional JSON payload, optional raw
binary data, headers, a required content type, optional metadata and an
optional correlation id. -/
structure WebhookRequest where
  payload : Option Json
  raw_data : Option (List Char)
  headers : List (String × String)
  content_type : String
  metadata : Option Json
  correlation_id : Option String

/-- Embeds Pydantic construction of `WebhookRequest` including the
`validate_data_size` field validator: `if v and len(v) > 1_000_000: raise
ValueError(...)` — only `raw_data` is checked, modelled as `Except.error`. -/
def mkWebhookRequest (payload : Option Json) (raw_data : Option (List Char))
    (headers : List (String × String)) (content_type : String)
    (metadata : Option Json) (correlation_id : Option String) :
    Except String WebhookRequest :=
  match raw_data with
  | some v =>
    if !v.isEmpty && v.length > 1000000 then
      .error "Data exceeds 1MB size limit"
    else
      .ok ⟨payload, raw_data, headers, content_type, metadata, correlation_id⟩
  | none =>
    .ok ⟨payload, raw_data, headers, content_type, metadata, correlation_id⟩

/-- A concrete JSON payload whose `json.dumps` serialization exceeds the
1,000,000-byte limit: a one-key object holding a string of one million
characters. -/
def oversizedPayload : Json :=
  Json.obj [("k", Json.str ⟨List.replicate 1000000 'x'⟩)]

/-- One stored record of a received webhook call (the dict stored by
`record_received`; the wall-clock timestamp field is outside the model). -/
structure ReceivedRecord where
  webhook_id : String
  headers : List (String × String)
  body : List Char
  content_type : String
  correlation_id : Option String

/-- The event repository state visible to the ingestion pipeline:
received records and statuses keyed by response id. -/
structure EventStore where
  events : List (Nat × ReceivedRecord)
  statuses : List (Nat × String)

/-- The empty event store. -/
def EventStore.empty : EventStore := ⟨[], []⟩

/-- Embeds `record_received` of the deterministic in-memory event
repository used with `ReceiveWebhook`
(src/tests/test_webhooks.py, `InMemoryEventRepository`): a fresh response
id derived from the store size (`UUID(int=len(self.events) + 1)`, modelled
as the integer itself; the S3 implementation draws a fresh `uuid4`
likewise distinct per call), the record inserted under it, the status set
to pending, the id returned.  There is no lookup of existing records:
every call inserts a new one. -/
def record_received (store : EventStore) (webhook_id : String)
    (raw_headers : List (String × String)) (raw_body : List Char)
    (content_type : String) (correlation_id : Option String) :
    Nat × EventStore :=
  let response_id := store.events.length + 1
  ( response_id
  , { events := store.events ++
        [(response_id,
          ⟨webhook_id, raw_headers, raw_body, content_type, correlation_id⟩)]
      statuses := store.statuses ++ [(response_id, "pending")] } )

/-- Embeds the `WebhookAcceptedResponse` returned synchronously
(timestamp outside the model). -/
structure WebhookAcceptedResponse where
  response_id : Nat
  status : String
  correlation_id : Option String

/-- Embeds `ReceiveWebhook.execute` (src/usecases/webhooks.py lines
18-51): look up the webhook, reject (`None`) on a missing id or key
mismatch, normalize the payload to raw bytes, record the call and return
the accepted response.  The webhook repository's `get_webhook` is the
lookup in `webhooks`; the event-store mutation is explicit state passing. -/
def receiveWebhook (webhooks : List Webhook) (store : EventStore)
    (webhook_id : String) (key : String) (request : WebhookRequest) :
    Option WebhookAcceptedResponse × EventStore :=
  match webhooks.find? (fun w => w.id == webhook_id) with
  | none => (none, store)
  | some webhook =>
    if !(webhook.key == key) then (none, store)
    else
      let raw_body :=
        match request.raw_data with
        | some d => d
        | none =>
          match request.payload with
          | some p => jsonDumps p
          | none => []
      let rs := record_received store webhook_id request.headers raw_body
        request.content_type request.correlation_id
      ( some ⟨rs.1, "accepted", request.correlation_id⟩, rs.2 )

/-! ## Events, actions and the queue processor
(src/domain/events.py, src/domain/actions.py, src/usecases/process_queue.py,
src/usecases/events/retry_events.py) -/

/-- Embeds the dataclass `Event` (src/domain/events.py); times are whole
seconds since an epoch, metadata triples are name/value/category. -/
structure Event where
  id : String
  action_id : String
  direction : String
  content : Json
  content_type : String
  status : String
  metadata : List (String × String × String)
  error : Option String
  created_at : Nat
  processed_at : Option Nat

/-- Embeds the dataclass `Action` (src/domain/actions.py), restricted to
the fields the embedded usecases consult (identity and delivery policy);
config, transforms and timestamps are carried nowhere in this engine. -/
structure Action where
  id : String
  name : String
  delivery_policy : DeliveryPolicy

/-- Embeds the dataclass `ActionResult` (src/domain/actions.py),
restricted to the fields the queue processor consults. -/
structure ActionResult where
  action_id : String
  request_id : String
  success : Bool
  result : Option Json
  error : Option String

/-- Outcome of the external `action_repo.execute(action, content)` call as
seen by the `try/except` in the usecases: either a returned
`ActionResult`, or a raised exception carrying its message. -/
inductive ExecOutcome where
  | returned : ActionResult → ExecOutcome
  | raised : String → ExecOutcome

/-- Replace-or-append on an association list keyed by event id. -/
def setAssoc {α : Type} (l : List (String × α)) (k : String) (v : α) :
    List (String × α) :=
  match l with
  | [] => [(k, v)]
  | kv :: rest => if kv.1 == k then (k, v) :: rest else kv :: setAssoc rest k v

/-- The event-repository state mutated by the queue processor and the
retry usecase: per-event status, error, retry count and processing time,
the list of events handed to `schedule_retry`, and stored results
(event id, success flag, error). -/
structure QueueStore where
  statuses : List (String × String)
  errors : List (String × String)
  retry_counts : List (String × Nat)
  processed_marks : List (String × Nat)
  scheduled : List String
  results : List (String × Bool × Option String)

/-- The empty queue store. -/
def QueueStore.empty : QueueStore := ⟨[], [], [], [], [], []⟩

/-- Modelled from the spec: `EventRepository.get_retry_count`, which has
no implementation under src/ (call sites only, in
src/usecases/process_queue.py and src/usecases/events/retry_events.py);
spec §3 gives every Event a `retryCount`, zero before any retry. -/
def getRetryCount (s : QueueStore) (event_id : String) : Nat :=
  match s.retry_counts.find? (fun kv => kv.1 == event_id) with
  | some kv => kv.2
  | none => 0

/-- Modelled from the spec: `EventRepository.update_status` as invoked by
the usecases (call sites only under src/) — records the new status and
processing time, and the error and retry count when supplied. -/
def update_status (s : QueueStore) (event_id status : String) (now : Nat)
    (error : Option String) (retry_count : Option Nat) : QueueStore :=
  { s with
    statuses := setAssoc s.statuses event_id status
    processed_marks := setAssoc s.processed_marks event_id now
    errors :=
      match error with
      | some e => setAssoc s.errors event_id e
      | none => s.errors
    retry_counts :=
      match retry_count with
      | some rc => setAssoc s.retry_counts event_id rc
      | none => s.retry_counts }

/-- Modelled from the spec: `EventRepository.schedule_retry` (call sites
only under src/); §4.2/§4.3: marks the event as scheduled for another
attempt. -/
def schedule_retry (s : QueueStore) (event_id : String) : QueueStore :=
  { s with scheduled := s.scheduled ++ [event_id] }

/-- Modelled from the spec: `ResultRepository.store_result` as invoked by
the usecases — appends the terminal result for the event. -/
def store_result (s : QueueStore) (event_id : String) (success : Bool)
    (error : Option String) : QueueStore :=
  { s with results := s.results ++ [(event_id, success, error)] }

namespace ProcessEventQueue

/-- Embeds `ProcessEventQueue._handle_success`: mark the event completed
and store the successful result. -/
def handle_success (s : QueueStore) (ev : Event) (now : Nat) : QueueStore :=
  store_result (update_status s ev.id "completed" now none none) ev.id true none

/-- Embeds `ProcessEventQueue._handle_failure` (src/usecases/process_queue.py
lines 94-116): mark the event failed, then schedule a retry exactly when
the recorded retry count is below the hardcoded `max_retries = 3`
(`TODO: Get from config`); otherwise store the terminal failure result.
Returns `true` when a retry was scheduled. -/
def handle_failure (s : QueueStore) (ev : Event) (error : String) (now : Nat) :
    Bool × QueueStore :=
  let s1 := update_status s ev.id "failed" now (some error) none
  let retry_count := getRetryCount s1 ev.id
  let max_retries := 3
  if retry_count < max_retries then (true, schedule_retry s1 ev.id)
  else (false, store_result s1 ev.id false (some error))

/-- The statistics dict returned by `ProcessEventQueue.execute`. -/
structure Stats where
  processed : Nat
  succeeded : Nat
  failed : Nat
  retry_scheduled : Nat
deriving Repr, DecidableEq

/-- One iteration of the `for event in events` loop of
`ProcessEventQueue.execute` (lines 46-76): a missing action is handed to
`_handle_failure` with "Action not found", its retry flag discarded and
the event counted as failed without a processed increment (`continue`);
otherwise the handler outcome drives success/failure accounting, with a
raise handled like a failure. -/
def processEvent (actions : List Action) (handler : Action → Json → ExecOutcome)
    (now : Nat) (acc : QueueStore × Stats) (ev : Event) : QueueStore × Stats :=
  let s := acc.1
  let stats := acc.2
  match actions.find? (fun a => a.id == ev.action_id) with
  | none =>
    let r := handle_failure s ev "Action not found" now
    (r.2, { stats with failed := stats.failed + 1 })
  | some action =>
    match handler action ev.content with
    | .returned result =>
      if result.success then
        ( handle_success s ev now
        , { stats with
            succeeded := stats.succeeded + 1
            processed := stats.processed + 1 } )
      else
        let err := match result.error with | some e => e | none => ""
        let r := handle_failure s ev err now
        if r.1 then
          ( r.2
          , { stats with
              retry_scheduled := stats.retry_scheduled + 1
              processed := stats.processed + 1 } )
        else
          ( r.2
          , { stats with
              failed := stats.failed + 1
              processed := stats.processed + 1 } )
    | .raised e =>
      let r := handle_failure s ev e now
      if r.1 then
        ( r.2
        , { stats with
            retry_scheduled := stats.retry_scheduled + 1
            processed := stats.processed + 1 } )
      else
        ( r.2
        , { stats with
            failed := stats.failed + 1
            processed := stats.processed + 1 } )

/-- Embeds `ProcessEventQueue.execute` (src/usecases/process_queue.py):
`get_pending_events(limit=batch_size)` is the pending list truncated to
the batch size; each event then flows through `processEvent`. -/
def execute (actions : List Action) (handler : Action → Json → ExecOutcome)
    (now : Nat) (store : QueueStore) (pending : List Event)
    (batch_size : Nat) : QueueStore × Stats :=
  (pending.take batch_size).foldl (processEvent actions handler now)
    (store, ⟨0, 0, 0, 0⟩)

end ProcessEventQueue

namespace RetryFailedEvents

/-- Embeds `RetryFailedEvents._should_retry_now`: true when the event has
no `processed_at`, or when at least the backoff delay has elapsed since
it; `backoff` in seconds. -/
def should_retry_now (ev : Event) (backoff : Nat) (now : Nat) : Bool :=
  match ev.processed_at with
  | none => true
  | some t => (now : Int) - (t : Int) ≥ (backoff : Int)

/-- Embeds `RetryFailedEvents._handle_permanent_failure`: mark the event
failed and store the terminal failure result — `schedule_retry` is never
invoked and the retry count is left unchanged. -/
def handle_permanent_failure (s : QueueStore) (ev : Event) (error : String)
    (now : Nat) : QueueStore :=
  store_result (update_status s ev.id "failed" now (some error) none)
    ev.id false (some error)

/-- Embeds `RetryFailedEvents._handle_failure`: mark the event failed with
the incremented retry count. -/
def handle_failure (s : QueueStore) (ev : Event) (error : String)
    (retry_count : Nat) (now : Nat) : QueueStore :=
  update_status s ev.id "failed" now (some error) (some retry_count)

/-- The statistics dict returned by `RetryFailedEvents.execute`. -/
structure Stats where
  retried : Nat
  succeeded : Nat
  failed : Nat
  max_attempts : Nat
deriving Repr, DecidableEq

/-- One iteration of the `for event in events` loop of
`RetryFailedEvents.execute` (src/usecases/events/retry_events.py lines
50-85): skip (counting `max_attempts`) when the retry count has reached
`max_retries`; skip silently when the backoff delay has not elapsed; a
missing action is a permanent failure; otherwise re-execute and record
the outcome. -/
def processEvent (actions : List Action) (handler : Action → Json → ExecOutcome)
    (max_retries : Nat) (now : Nat) (acc : QueueStore × Stats) (ev : Event) :
    QueueStore × Stats :=
  let s := acc.1
  let stats := acc.2
  let retry_count := getRetryCount s ev.id
  if retry_count ≥ max_retries then
    (s, { stats with max_attempts := stats.max_attempts + 1 })
  else
    let backoff := calculate_backoff retry_count
    if !should_retry_now ev backoff now then (s, stats)
    else
      match actions.find? (fun a => a.id == ev.action_id) with
      | none =>
        ( handle_permanent_failure s ev "Action not found" now
        , { stats with failed := stats.failed + 1 } )
      | some action =>
        match handler action ev.content with
        | .returned result =>
          if result.success then
            ( store_result (update_status s ev.id "completed" now none none)
                ev.id true none
            , { stats with
                succeeded := stats.succeeded + 1
                retried := stats.retried + 1 } )
          else
            let err := match result.error with | some e => e | none => ""
            ( handle_failure s ev err (retry_count + 1) now
            , { stats with
                failed := stats.failed + 1
                retried := stats.retried + 1 } )
        | .raised e =>
          ( handle_failure s ev e (retry_count + 1) now
          , { stats with
              failed := stats.failed + 1
              retried := stats.retried + 1 } )

/-- Embeds `RetryFailedEvents.execute`: the batch of failed events
truncated to `batch_size`, folded through `processEvent`. -/
def execute (actions : List Action) (handler : Action → Json → ExecOutcome)
    (max_retries : Nat) (now : Nat) (store : QueueStore)
    (failed_events : List Event) (batch_size : Nat) : QueueStore × Stats :=
  (failed_events.take batch_size).foldl
    (processEvent actions handler max_retries now) (store, ⟨0, 0, 0, 0⟩)

end RetryFailedEvents

/-- The retry-eligibility predicate as the spec words it (§4.3), for
comparison with the code: retry is allowed iff the policy's semantic
allows retry, AND `maxRetries` is unlimited or the event's retry count is
strictly below it, AND the policy has no expiry or the time elapsed since
the event's creation is strictly below it. -/
def specRetryEligible (policy : DeliveryPolicy) (retryCount : Nat)
    (elapsedSinceCreation : Nat) : Bool :=
  policy.semantic.allows_retry &&
  (match policy.max_retries with
   | none => true
   | some m => (retryCount : Int) < m) &&
  (match policy.expiry with
   | none => true
   | some e => elapsedSinceCreation < e)

end ActionService

namespace ActionService

/-! ## Theorems -/

/-- C1: the computed backoff delay equals `min(30s * 2^retryCount, 1 hour)`
with retryCount 0-based: retryCount 0..6 yields 30, 60, 120, 240, 480,
960, 1920 seconds, retryCount 10 yields exactly 3600 seconds (the cap),
and the delay sequence is monotonically non-decreasing and never exceeds
the cap. -/
theorem c1_backoff_capped_exponential :
    (calculate_backoff 0 = 30 ∧ calculate_backoff 1 = 60 ∧
     calculate_backoff 2 = 120 ∧ calculate_backoff 3 = 240 ∧
     calculate_backoff 4 = 480 ∧ calculate_backoff 5 = 960 ∧
     calculate_backoff 6 = 1920 ∧ calculate_backoff 10 = 3600) ∧
    (∀ n, calculate_backoff n = min (30 * 2 ^ n) 3600) ∧
    (∀ n, calculate_backoff n ≤ calculate_backoff (n + 1)) ∧
    (∀ n, calculate_backoff n ≤ 3600) := by
  refine ⟨by decide, fun n => rfl, fun n => ?_, fun n => min_le_right _ _⟩
  unfold calculate_backoff
  have h : 30 * 2 ^ n ≤ 30 * 2 ^ (n + 1) := by
    apply Nat.mul_le_mul_left
    exact Nat.pow_le_pow_right (by norm_num) (Nat.le_succ n)
  exact min_le_min h le_rfl

/-- C3: constructing a `DeliveryPolicy` fails exactly when one of the two
semantic invariants is violated — `allows_retry` false with
`max_retries != 0` (in Python, `None != 0` holds), or `requires_dedup`
true with `requires_ack` false; every construction where both invariants
hold succeeds. -/
theorem c3_policy_construction_iff_invariants :
    ∀ (sem : DeliverySemantic) (mr : Option Int) (rd : Nat) (ex : Option Nat),
      (∃ p, mkDeliveryPolicy sem mr rd ex = .ok p) ↔
      ¬((sem.allows_retry = false ∧ mr ≠ some 0) ∨
        (sem.requires_dedup = true ∧ sem.requires_ack = false)) := by
  intro sem mr rd ex
  unfold mkDeliveryPolicy
  split_ifs with h1 h2
  · simp only [Bool.and_eq_true, Bool.not_eq_true'] at h1
    constructor
    · rintro ⟨p, hp⟩
      exact absurd hp (by simp)
    · intro hno
      exact absurd (Or.inl ⟨h1.1, by simpa using h1.2⟩) hno
  · simp only [Bool.and_eq_true, Bool.not_eq_true'] at h2
    constructor
    · rintro ⟨p, hp⟩
      exact absurd hp (by simp)
    · intro hno
      exact absurd (Or.inr ⟨h2.1, h2.2⟩) hno
  · simp only [Bool.and_eq_true, not_and, Bool.not_eq_true'] at h1 h2
    constructor
    · intro _
      push_neg
      refine ⟨fun hretry => ?_, fun hdedup => ?_⟩
      · have := h1 hretry
        simpa using this
      · have := h2 hdedup
        simpa using this
    · intro _
      exact ⟨⟨sem, mr, rd, ex⟩, rfl⟩

/-- C10: `normalize` succeeds exactly on the strings `is_valid` accepts,
returns only the canonical values `"efferent"` (for outbound/efferent) or
`"afferent"` (for inbound/afferent), and is idempotent on its results. -/
theorem c10_normalize_total_on_valid_and_idempotent :
    ∀ x : String,
      ((∃ y, ActionDirection.normalize x = .ok y) ↔
        ActionDirection.is_valid x = true) ∧
      (∀ y, ActionDirection.normalize x = .ok y →
        (y = "efferent" ∨ y = "afferent") ∧
        ActionDirection.normalize y = .ok y) ∧
      ((x = "outbound" ∨ x = "efferent") →
        ActionDirection.normalize x = .ok "efferent") ∧
      ((x = "inbound" ∨ x = "afferent") →
        ActionDirection.normalize x = .ok "afferent") := by
  intro x
  by_cases h1 : x = "outbound" <;> by_cases h2 : x = "efferent" <;>
    by_cases h3 : x = "inbound" <;> by_cases h4 : x = "afferent" <;>
    simp_all [ActionDirection.normalize, ActionDirection.is_valid]

/-- Length of a serialized JSON string body. -/
theorem jsonDumps_str_length (s : String) :
    (jsonDumps (Json.str s)).length = s.data.length + 2 := by
  simp [jsonDumps]

/-- Length of a serialized one-entry JSON object body. -/
theorem jsonDumps_obj_single_length (k : String) (v : Json) :
    (jsonDumps (Json.obj [(k, v)])).length =
      k.data.length + (jsonDumps v).length + 6 := by
  simp [jsonDumps, jsonDumpsObj]
  omega

/-- The oversized payload's serialized body exceeds the 1,000,000-byte
ceiling. -/
theorem oversizedPayload_body_large :
    (jsonDumps oversizedPayload).length > 1000000 := by
  rw [oversizedPayload, jsonDumps_obj_single_length, jsonDumps_str_length]
  rw [show (String.mk (List.replicate 1000000 'x')).data =
    List.replicate 1000000 'x' from rfl]
  rw [List.length_replicate]
  norm_num

/-- C9: condition evaluation is total — a rule with no condition (or an
empty one, both falsy in Python) always matches; a condition whose dotted
path is missing from the message evaluates to false rather than
propagating the raise; and a true evaluation can only arise from the empty
condition or a successful lookup of a truthy value, so no other outcome
than a boolean is possible. -/
theorem c9_condition_evaluation_total :
    (∀ (msg : Json), RouteMessage.evaluate_condition none msg = true) ∧
    (∀ (msg : Json), RouteMessage.evaluate_condition (some "") msg = true) ∧
    (∀ (c : String) (msg : Json),
      c ≠ "" → (∃ e, lookupPath msg (pySplitDot c) = .error e) →
      RouteMessage.evaluate_condition (some c) msg = false) ∧
    (∀ (c : String) (msg : Json),
      RouteMessage.evaluate_condition (some c) msg = true →
      c = "" ∨ ∃ v, lookupPath msg (pySplitDot c) = .ok v ∧ truthy v = true) := by
  refine ⟨fun msg => rfl, fun msg => rfl, ?_, ?_⟩
  · rintro c msg hc ⟨e, he⟩
    have hcb : (c == "") = false := by simp [hc]
    unfold RouteMessage.evaluate_condition
    simp [hcb, he]
  · intro c msg h
    by_cases hc : c = ""
    · exact Or.inl hc
    · right
      have hcb : (c == "") = false := by simp [hc]
      unfold RouteMessage.evaluate_condition at h
      simp only [hcb, Bool.false_eq_true, if_false] at h
      cases hl : lookupPath msg (pySplitDot c) with
      | ok v =>
        rw [hl] at h
        exact ⟨v, rfl, h⟩
      | error e =>
        rw [hl] at h
        simp at h

/-- Witness for C9: a rule with no condition matches any message, and the
condition `"a.b"` on the message `{a: 1}` (where the path dead-ends in a
number) evaluates to false. -/
theorem c9_witness :
    RouteMessage.evaluate_condition none (Json.obj []) = true ∧
    RouteMessage.evaluate_condition (some "a.b")
      (Json.obj [("a", Json.num 1)]) = false :=
  ⟨c9_condition_evaluation_total.1 (Json.obj []),
   c9_condition_evaluation_total.2.2.1 "a.b" (Json.obj [("a", Json.num 1)])
     (by decide)
     ⟨"TypeError: value is not subscriptable by str", rfl⟩⟩

/-- C4 (code bug): on rules `[{cond: "priority>5", dest: Q1},
{cond: null, dest: Q2}]` with strategy `first-match`, the resolver returns
`["Q2"]` — not `["Q1"]` as the spec requires for a priority-10 message —
because the first-match condition evaluator is the TODO stub `return
False`, which never consults the message at all; the shadowing
priority-order `RouteMessage` returns `["Q2"]` for the priority-10 message
too, since its dotted-path lookup treats `"priority>5"` as a literal key. -/
theorem c4_first_match_returns_default_not_q1 :
    RouteMessageStrategies.execute
      ⟨[⟨"rule1", "Q1", some "priority>5", 0, [], ""⟩,
        ⟨"rule2", "Q2", none, 0, [], ""⟩], "first-match", none⟩ = ["Q2"] ∧
    RouteMessage.execute (Json.obj [("priority", Json.num 10)])
      [⟨"rule1", "Q1", some "priority>5", 0, [], ""⟩,
       ⟨"rule2", "Q2", none, 0, [], ""⟩] = ["Q2"] :=
  ⟨rfl, rfl⟩

/-- C6: when the webhook id is unknown or the supplied key mismatches,
`receiveWebhook` returns the rejection (`None`) and the event store is
returned unchanged — no Event or receipt is created. -/
theorem c6_rejected_call_leaves_store_unchanged :
    ∀ (webhooks : List Webhook) (store : EventStore) (wid key : String)
      (req : WebhookRequest),
      (webhooks.find? (fun w => w.id == wid) = none ∨
        ∃ w, webhooks.find? (fun w => w.id == wid) = some w ∧ w.key ≠ key) →
      receiveWebhook webhooks store wid key req = (none, store) := by
  rintro webhooks store wid key req (h | ⟨w, hw, hk⟩) <;> unfold receiveWebhook
  · rw [h]
  · rw [hw]
    have hb : (w.key == key) = false := by simp [hk]
    simp [hb]

/-- Witness for C6: a wrong key against the stored webhook is rejected
with the store intact. -/
theorem c6_witness :
    receiveWebhook [⟨"test", "secret", []⟩] EventStore.empty "test" "wrong"
      ⟨none, none, [], "application/json", none, none⟩ =
      (none, EventStore.empty) :=
  c6_rejected_call_leaves_store_unchanged _ _ _ _ _
    (Or.inr ⟨⟨"test", "secret", []⟩, rfl, by decide⟩)

/-- C5 (counterexample): submitting the identical payload twice with the
same correlation id, the first Event still pending, returns response id 1
then response id 2 — different ids — and the store holds two Events: the
pipeline performs no idempotency check. -/
theorem c5_duplicate_submission_creates_second_event :
    let webhooks : List Webhook := [⟨"test", "secret", []⟩]
    let req : WebhookRequest :=
      ⟨none, some ['v'], [], "application/octet-stream", none, some "dup-key"⟩
    let r1 := receiveWebhook webhooks EventStore.empty "test" "secret" req
    let r2 := receiveWebhook webhooks r1.2 "test" "secret" req
    r1.1 = some ⟨1, "accepted", some "dup-key"⟩ ∧
    r2.1 = some ⟨2, "accepted", some "dup-key"⟩ ∧
    (1 : Nat) ≠ 2 ∧
    r2.2.events.length = 2 ∧
    r1.2.statuses = [(1, "pending")] :=
  ⟨rfl, rfl, by decide, rfl, rfl⟩

/-- C5 (amended): every accepted submission unconditionally records a new
Event and returns a freshly generated response id (one past the current
store size), so a repeated submission yields a different response id and a
second Event rather than the first one's id. -/
theorem c5_accepted_call_always_appends_fresh_event :
    ∀ (webhooks : List Webhook) (store : EventStore) (wid key : String)
      (req : WebhookRequest) (w : Webhook),
      webhooks.find? (fun x => x.id == wid) = some w →
      w.key = key →
      (receiveWebhook webhooks store wid key req).1 =
        some ⟨store.events.length + 1, "accepted", req.correlation_id⟩ ∧
      (receiveWebhook webhooks store wid key req).2.events.length =
        store.events.length + 1 := by
  intro webhooks store wid key req w hw hk
  unfold receiveWebhook
  rw [hw]
  have hb : (w.key == key) = true := by simp [hk]
  simp [hb, record_received]

/-- Witness for the amended C5 at a concrete accepted call. -/
theorem c5_amended_witness :
    (receiveWebhook [⟨"test", "secret", []⟩] EventStore.empty "test" "secret"
      ⟨none, none, [], "application/json", none, none⟩).1 =
      some ⟨1, "accepted", none⟩ ∧
    (receiveWebhook [⟨"test", "secret", []⟩] EventStore.empty "test" "secret"
      ⟨none, none, [], "application/json", none, none⟩).2.events.length = 1 :=
  c5_accepted_call_always_appends_fresh_event _ _ _ _ _
    ⟨"test", "secret", []⟩ rfl rfl

/-- C8 (counterexample): a request whose JSON payload serializes to more
than 1,000,000 bytes passes request validation (only `raw_data` is
size-checked) and its oversized body is stored by the ingestion pipeline:
an oversized body does reach storage. -/
theorem c8_oversized_json_body_reaches_storage :
    mkWebhookRequest (some oversizedPayload) none [] "application/json"
      none none =
      .ok ⟨some oversizedPayload, none, [], "application/json", none, none⟩ ∧
    (receiveWebhook [⟨"test", "secret", []⟩] EventStore.empty "test" "secret"
      ⟨some oversizedPayload, none, [], "application/json", none, none⟩).2.events =
      [(1, ⟨"test", [], jsonDumps oversizedPayload, "application/json", none⟩)] ∧
    (jsonDumps oversizedPayload).length > 1000000 :=
  ⟨rfl, rfl, oversizedPayload_body_large⟩

/-- C8 (amended): the 1,000,000-byte ceiling is enforced only on
`raw_data` — a request whose raw binary body exceeds the limit cannot be
constructed at all (rejected by the validator, hence before any storage),
and every constructed request's raw binary body is within the limit; JSON
payloads are not size-checked. -/
theorem c8_raw_data_size_gate :
    (∀ (p : Option Json) (hs : List (String × String)) (ct : String)
       (md : Option Json) (cid : Option String) (v : List Char),
       v.length > 1000000 →
       mkWebhookRequest p (some v) hs ct md cid =
         .error "Data exceeds 1MB size limit") ∧
    (∀ (p : Option Json) (rd : Option (List Char))
       (hs : List (String × String)) (ct : String) (md : Option Json)
       (cid : Option String) (req : WebhookRequest),
       mkWebhookRequest p rd hs ct md cid = .ok req →
       ∀ v, req.raw_data = some v → v.length ≤ 1000000) := by
  constructor
  · intro p hs ct md cid v hv
    have hne : v.isEmpty = false := by
      cases v with
      | nil => simp at hv
      | cons a l => rfl
    unfold mkWebhookRequest
    simp [hne, hv]
  · intro p rd hs ct md cid req hreq v hv
    cases rd with
    | none =>
      simp only [mkWebhookRequest] at hreq
      cases hreq
      simp at hv
    | some u =>
      simp only [mkWebhookRequest] at hreq
      by_cases hbig : (!u.isEmpty && decide (u.length > 1000000)) = true
      · rw [if_pos hbig] at hreq
        exact absurd hreq (by simp)
      · rw [if_neg hbig] at hreq
        cases hreq
        simp only [Option.some.injEq] at hv
        subst hv
        simp only [Bool.and_eq_true, Bool.not_eq_true', decide_eq_true_eq,
          not_and, not_lt] at hbig
        by_cases hu : u.isEmpty
        · have : u = [] := by simpa [List.isEmpty_iff] using hu
          simp [this]
        · exact hbig (by simpa using hu)

/-- Witness for the amended C8: a 1,000,001-byte raw body is rejected at
construction, and a constructed one-byte request is within the limit. -/
theorem c8_amended_witness :
    mkWebhookRequest none (some (List.replicate 1000001 'x')) []
      "application/octet-stream" none none =
      .error "Data exceeds 1MB size limit" ∧
    (['a'] : List Char).length ≤ 1000000 :=
  ⟨c8_raw_data_size_gate.1 none [] "application/octet-stream" none none _
    (by rw [List.length_replicate]; norm_num),
   c8_raw_data_size_gate.2 none (some ['a']) [] "application/octet-stream"
    none none ⟨none, some ['a'], [], "application/octet-stream", none, none⟩
    rfl ['a'] rfl⟩

/-- C7 (code bug): a pending event whose action is missing is handed to
`_handle_failure`, which schedules a retry (its retry count 0 being below
the hardcoded 3) even though the batch statistics count the event as
permanently failed; by contrast `RetryFailedEvents` routes the same
situation through `_handle_permanent_failure`, which schedules nothing. -/
theorem c7_missing_action_still_scheduled_for_retry :
    ProcessEventQueue.execute [] (fun _ _ => ExecOutcome.raised "unused") 100
      QueueStore.empty
      [⟨"ev-7", "missing-action", "incoming", Json.null, "application/json",
        "pending", [], none, 0, none⟩] 100 =
      (⟨[("ev-7", "failed")], [("ev-7", "Action not found")], [],
        [("ev-7", 100)], ["ev-7"], []⟩, ⟨0, 0, 1, 0⟩) ∧
    (RetryFailedEvents.execute [] (fun _ _ => ExecOutcome.raised "unused") 3
      100 QueueStore.empty
      [⟨"ev-7", "missing-action", "incoming", Json.null, "application/json",
        "failed", [], none, 0, none⟩] 50).1.scheduled = [] :=
  ⟨rfl, rfl⟩

/-- C2 (counterexample): for the streaming policy (whose semantic forbids
retry, `maxRetries = 0`) and an event with retry count 0, the spec's
three-way eligibility predicate denies a retry, yet the queue processor's
failure handler schedules one — the policy is not consulted at all. -/
theorem c2_policy_not_consulted_counterexample :
    mkDeliveryPolicy streamingSemantic (some 0) 30 none =
      .ok ⟨streamingSemantic, some 0, 30, none⟩ ∧
    specRetryEligible ⟨streamingSemantic, some 0, 30, none⟩ 0 0 = false ∧
    (ProcessEventQueue.handle_failure QueueStore.empty
      ⟨"ev-1", "act-1", "incoming", Json.null, "application/json",
        "processing", [], none, 0, none⟩ "handler failed" 100).1 = true :=
  ⟨rfl, rfl, rfl⟩

/-- C2 (amended): the queue processor's failure handler schedules a retry
exactly when the event's recorded retry count is below the hardcoded limit
of 3; and the retry usecase skips an event (only counting it toward
`max_attempts`) whenever its retry count has reached the `max_retries`
argument — in neither path is the delivery policy consulted. -/
theorem c2_retry_decision_is_count_below_three :
    (∀ (s : QueueStore) (ev : Event) (error : String) (now : Nat),
      ((ProcessEventQueue.handle_failure s ev error now).1 = true ↔
        getRetryCount s ev.id < 3)) ∧
    (∀ (actions : List Action) (handler : Action → Json → ExecOutcome)
       (max_retries now : Nat) (acc : QueueStore × RetryFailedEvents.Stats)
       (ev : Event),
       getRetryCount acc.1 ev.id ≥ max_retries →
       RetryFailedEvents.processEvent actions handler max_retries now acc ev =
         (acc.1, { acc.2 with max_attempts := acc.2.max_attempts + 1 })) := by
  constructor
  · intro s ev error now
    unfold ProcessEventQueue.handle_failure
    dsimp only
    have hrc : getRetryCount
        (update_status s ev.id "failed" now (some error) none) ev.id =
        getRetryCount s ev.id := rfl
    split_ifs with h
    · rw [hrc] at h
      simp [h]
    · rw [hrc] at h
      simp [h]
  · intro actions handler max_retries now acc ev h
    unfold RetryFailedEvents.processEvent
    simp [h]

/-- Witness for the amended C2 at concrete inputs: an event with retry
count 0 gets a retry scheduled by the queue processor, and with
`max_retries = 0` the retry usecase skips it, counting `max_attempts`. -/
theorem c2_amended_witness :
    (ProcessEventQueue.handle_failure QueueStore.empty
      ⟨"ev-2", "act-2", "incoming", Json.null, "application/json",
        "processing", [], none, 0, none⟩ "boom" 7).1 = true ∧
    RetryFailedEvents.processEvent [] (fun _ _ => ExecOutcome.raised "u") 0 7
      (QueueStore.empty, ⟨0, 0, 0, 0⟩)
      ⟨"ev-2", "act-2", "incoming", Json.null, "application/json",
        "failed", [], none, 0, none⟩ =
      (QueueStore.empty, ⟨0, 0, 0, 1⟩) :=
  ⟨(c2_retry_decision_is_count_below_three.1 QueueStore.empty
      ⟨"ev-2", "act-2", "incoming", Json.null, "application/json",
        "processing", [], none, 0, none⟩ "boom" 7).mpr (by decide),
   c2_retry_decision_is_count_below_three.2 [] (fun _ _ => .raised "u") 0 7
     (QueueStore.empty, ⟨0, 0, 0, 0⟩)
     ⟨"ev-2", "act-2", "incoming", Json.null, "application/json",
       "failed", [], none, 0, none⟩ (by decide)⟩

/-- Witness for C10 at the concrete input `"outbound"`. -/
theorem c10_witness :
    ActionDirection.is_valid "outbound" = true ∧
    ActionDirection.normalize "outbound" = .ok "efferent" ∧
    ActionDirection.normalize "efferent" = .ok "efferent" :=
  ⟨by decide,
   (c10_normalize_total_on_valid_and_idempotent "outbound").2.2.1 (Or.inl rfl),
   ((c10_normalize_total_on_valid_and_idempotent "outbound").2.1 "efferent"
     ((c10_normalize_total_on_valid_and_idempotent "outbound").2.2.1
       (Or.inl rfl))).2⟩

end ActionService
